import Mathlib

/-!
Shallow embedding of the WebSocket location-broadcast hub from
`src/server/websocket.ts` (the only concurrency/state-machine core of the
repository).  Connections are identified by natural numbers; the `ws`
library's connection attributes (`readyState`, whether `ws.send` throws)
are an environment `ConnEnv`.  The JS `Map<WS, TrackingClient>` registry is
an association list keyed by connection id.  JS numeric fields that the code
tests for truthiness are `Option Int` (absent = `none`; the numeric value
`0` is falsy); string fields are `Option String` (the empty string is
falsy).  The two awaited database writes of a `location_update` (the
tracking-record insert and the booking last-known-location update) are
external calls whose success is an input flag; the records they would write
are returned explicitly so that theorems can talk about "no persistence
write happened".
-/

set_option autoImplicit false

namespace LocationHub

/-- The `ws` library's four `readyState` values. -/
inductive ReadyState
  | connecting
  | opened
  | closing
  | closed
deriving DecidableEq

/-- Per-connection transport environment: the connection's current
`readyState`, and whether a `ws.send` on it throws. -/
structure ConnEnv where
  readyState : Nat → ReadyState
  sendFails : Nat → Bool

/-- The `TrackingClient` record of `websocket.ts` (the `ws` handle itself is
the association-list key, so it is not repeated inside the record). -/
structure TrackingClient where
  bookingId : Option Int
  userId : Int
  role : String
  lastPing : Option Int
deriving DecidableEq

/-- The `clients` map: `Map<WS, TrackingClient>` as an association list. -/
abbrev Registry := List (Nat × TrackingClient)

/-- `clients.get(ws)`: first entry with the given key. -/
def Registry.get : Registry → Nat → Option TrackingClient
  | [], _ => none
  | e :: rest, c => if e.1 = c then some e.2 else Registry.get rest c

/-- `clients.set(ws, client)`: overwrite the entry in place, or append. -/
def Registry.set : Registry → Nat → TrackingClient → Registry
  | [], c, cl => [(c, cl)]
  | e :: rest, c, cl => if e.1 = c then (c, cl) :: rest else e :: Registry.set rest c cl

/-- `clients.delete(ws)`: remove the entry with the given key. -/
def Registry.remove (r : Registry) (c : Nat) : Registry :=
  r.filter (fun e => decide (e.1 ≠ c))

/-- JS truthiness of an optional numeric field: `undefined`, `null` and `0`
are falsy. -/
def truthyNum : Option Int → Bool
  | none => false
  | some n => decide (n ≠ 0)

/-- JS truthiness of an optional string field: `undefined`, `null` and `""`
are falsy. -/
def truthyStr : Option String → Bool
  | none => false
  | some s => decide (s ≠ "")

/-- A parsed incoming frame (the JSON-parse and `type`-field checks of
`handleMessage` precede this; an unrecognized `type` is `unknown`). -/
inductive Msg
  | init (userId : Option Int) (role : Option String)
  | subscribeTracking (bookingId : Option Int)
  | locationUpdate (bookingId latitude longitude speed heading : Option Int)
  | ping
  | unknown
deriving DecidableEq

/-- Which `throw`/failure produced an `error` frame (the code sends the
error's message string; we keep the provenance instead). -/
inductive ErrKind
  | notInitialized
  | initValidation
  | subscribeValidation
  | locationValidation
  | unknownType
  | insertFailure
  | updateFailure
  | sendFailure
deriving DecidableEq

/-- The payload of a broadcast `location_update` frame. -/
structure LocationSample where
  bookingId : Int
  latitude : Int
  longitude : Int
  speed : Option Int
  heading : Option Int
deriving DecidableEq

/-- An outgoing frame. -/
inductive OutMsg
  | connectionEstablished
  | error (kind : ErrKind)
  | initSuccess
  | subscribeSuccess (bookingId : Int)
  | pong
  | locationUpdateFrame (data : LocationSample)
deriving DecidableEq

/-- A row appended to the `locationTracking` table by `db.insert`. -/
structure TrackingRecord where
  bookingId : Int
  latitude : Int
  longitude : Int
  speed : Option Int
  heading : Option Int
  status : String
deriving DecidableEq

/-- The denormalized last-known-location fields written onto `bookings`
by `db.update`. -/
structure BookingUpdate where
  bookingId : Int
  lastKnownLatitude : Int
  lastKnownLongitude : Int
  lastLocationUpdate : Int
deriving DecidableEq

/-- `handleError(ws, error)`: sends an `error` frame back iff the connection
is open; a failing send there is swallowed (logged only), so the delivered
frames are empty in that case too.  It never touches the registry. -/
def handleError (env : ConnEnv) (c : Nat) (k : ErrKind) : List (Nat × OutMsg) :=
  if env.readyState c = ReadyState.opened ∧ env.sendFails c = false then
    [(c, OutMsg.error k)]
  else []

/-- One iteration of the `broadcastLocationUpdate` loop body: for an entry of
the snapshot, if its `bookingId` matches the sample's and its connection is
open, try `ws.send`; a throwing send deletes the entry from the (live)
registry, a successful send records the delivered frame. -/
def broadcastStep (env : ConnEnv) (u : LocationSample)
    (acc : Registry × List (Nat × OutMsg)) (e : Nat × TrackingClient) :
    Registry × List (Nat × OutMsg) :=
  if e.2.bookingId = some u.bookingId ∧ env.readyState e.1 = ReadyState.opened then
    if env.sendFails e.1 then (Registry.remove acc.1 e.1, acc.2)
    else (acc.1, acc.2 ++ [(e.1, OutMsg.locationUpdateFrame u)])
  else acc

/-- `broadcastLocationUpdate(update)`: iterate over a snapshot
(`Array.from(clients.entries())`) of the registry, starting from the live
registry; returns the final registry and the delivered frames. -/
def broadcastLocationUpdate (env : ConnEnv) (r : Registry) (u : LocationSample) :
    Registry × List (Nat × OutMsg) :=
  r.foldl (broadcastStep env u) (r, [])

/-- Everything observable `handleMessage` did: the registry afterwards, the
frames actually delivered (send succeeded), and the database rows written. -/
structure HandleResult where
  registry : Registry
  sent : List (Nat × OutMsg)
  inserts : List TrackingRecord
  bookingUpdates : List BookingUpdate
deriving DecidableEq

/-- Whether a message's `type` field is `'init'`. -/
def Msg.isInit : Msg → Bool
  | .init _ _ => true
  | _ => false

/-- `handleMessage(ws, message)` for an already-parsed frame.  `now` is
`Date.now()`; `insertOk`/`updateOk` say whether the awaited
`db.insert(locationTracking)` / `db.update(bookings)` calls succeed. -/
def handleMessage (env : ConnEnv) (now : Int) (insertOk updateOk : Bool)
    (r : Registry) (c : Nat) (m : Msg) : HandleResult :=
  let client := Registry.get r c
  if client = none ∧ m.isInit = false then
    ⟨r, handleError env c ErrKind.notInitialized, [], []⟩
  else
    match m with
    | .init userId role =>
      if (truthyNum userId && truthyStr role) = false then
        ⟨r, handleError env c ErrKind.initValidation, [], []⟩
      else
        let r1 := Registry.set r c ⟨none, userId.getD 0, role.getD "", some now⟩
        if env.sendFails c then ⟨r1, handleError env c ErrKind.sendFailure, [], []⟩
        else ⟨r1, [(c, OutMsg.initSuccess)], [], []⟩
    | .subscribeTracking bookingId =>
      if truthyNum bookingId = false then
        ⟨r, handleError env c ErrKind.subscribeValidation, [], []⟩
      else
        match client with
        | some cl =>
          let r1 := Registry.set r c { cl with bookingId := bookingId, lastPing := some now }
          if env.sendFails c then ⟨r1, handleError env c ErrKind.sendFailure, [], []⟩
          else ⟨r1, [(c, OutMsg.subscribeSuccess (bookingId.getD 0))], [], []⟩
        | none => ⟨r, [], [], []⟩
    | .locationUpdate bookingId latitude longitude speed heading =>
      if (truthyNum bookingId && truthyNum latitude && truthyNum longitude) = false then
        ⟨r, handleError env c ErrKind.locationValidation, [], []⟩
      else
        let r1 := match client with
          | some cl => Registry.set r c { cl with lastPing := some now }
          | none => r
        if insertOk = false then
          ⟨r1, handleError env c ErrKind.insertFailure, [], []⟩
        else
          let row : TrackingRecord :=
            ⟨bookingId.getD 0, latitude.getD 0, longitude.getD 0, speed, heading, "active"⟩
          if updateOk = false then
            ⟨r1, handleError env c ErrKind.updateFailure, [row], []⟩
          else
            let bu : BookingUpdate := ⟨bookingId.getD 0, latitude.getD 0, longitude.getD 0, now⟩
            let u : LocationSample := ⟨bookingId.getD 0, latitude.getD 0, longitude.getD 0, speed, heading⟩
            let res := broadcastLocationUpdate env r1 u
            ⟨res.1, res.2, [row], [bu]⟩
    | .ping =>
      match client with
      | some cl =>
        let r1 := Registry.set r c { cl with lastPing := some now }
        if env.sendFails c then ⟨r1, handleError env c ErrKind.sendFailure, [], []⟩
        else ⟨r1, [(c, OutMsg.pong)], [], []⟩
      | none => ⟨r, [], [], []⟩
    | .unknown =>
      ⟨r, handleError env c ErrKind.unknownType, [], []⟩

/-- Whether `cleanupStaleConnections` deletes an entry: connection closed or
closing, or (`lastPing` truthy and) older than `STALE_TIMEOUT = 120000` ms. -/
def staleCondition (env : ConnEnv) (now : Int) (e : Nat × TrackingClient) : Bool :=
  decide (env.readyState e.1 = ReadyState.closed) ||
  decide (env.readyState e.1 = ReadyState.closing) ||
  (match e.2.lastPing with
   | some t => decide (t ≠ 0) && decide (now - t > 120000)
   | none => false)

/-- One iteration of the `cleanupStaleConnections` loop body. -/
def cleanupStep (env : ConnEnv) (now : Int) (reg : Registry) (e : Nat × TrackingClient) :
    Registry :=
  if staleCondition env now e then Registry.remove reg e.1 else reg

/-- `cleanupStaleConnections()`: one pass over a snapshot of the registry,
deleting every entry satisfying `staleCondition`. -/
def cleanupStaleConnections (env : ConnEnv) (now : Int) (r : Registry) : Registry :=
  r.foldl (cleanupStep env now) r

/-- In every reachable registry state the `lastPing` field was set by some
`Date.now()` call, hence is present and positive. -/
def livePingPositive (cl : TrackingClient) : Bool :=
  match cl.lastPing with
  | some t => decide (0 < t)
  | none => false

example :
    (handleMessage ⟨fun _ => ReadyState.opened, fun _ => false⟩ 7 true true [] 1
      (Msg.init (some 3) (some "driver"))).registry
      = [(1, ⟨none, 3, "driver", some 7⟩)] := by decide

example :
    (handleMessage ⟨fun _ => ReadyState.opened, fun _ => false⟩ 7 true true [] 1
      Msg.ping).sent = [(1, OutMsg.error ErrKind.notInitialized)] := by decide

/-! ### Association-list (registry) lemmas -/

theorem Registry.get_set_self (r : Registry) (c : Nat) (cl : TrackingClient) :
    Registry.get (Registry.set r c cl) c = some cl := by
  induction r with
  | nil => simp [Registry.set, Registry.get]
  | cons e rest ih =>
    by_cases h : e.1 = c
    · simp [Registry.set, h, Registry.get]
    · simp [Registry.set, h, Registry.get, ih]

theorem Registry.set_set (r : Registry) (c : Nat) (a b : TrackingClient) :
    Registry.set (Registry.set r c a) c b = Registry.set r c b := by
  induction r with
  | nil => simp [Registry.set]
  | cons e rest ih =>
    by_cases h : e.1 = c
    · simp [Registry.set, h]
    · simp [Registry.set, h, ih]

theorem Registry.get_mem {r : Registry} {c : Nat} {cl : TrackingClient}
    (h : Registry.get r c = some cl) : (c, cl) ∈ r := by
  induction r with
  | nil => simp [Registry.get] at h
  | cons e rest ih =>
    rcases e with ⟨k, v⟩
    by_cases he : k = c
    · subst he
      rw [Registry.get, if_pos rfl] at h
      injection h with h2
      subst h2
      exact List.mem_cons_self _ _
    · rw [Registry.get, if_neg he] at h
      exact List.mem_cons_of_mem _ (ih h)

theorem Registry.get_remove_self (r : Registry) (c : Nat) :
    Registry.get (Registry.remove r c) c = none := by
  induction r with
  | nil => rfl
  | cons e rest ih =>
    by_cases h : e.1 = c
    · simpa [Registry.remove, List.filter_cons, h] using ih
    · simpa [Registry.remove, List.filter_cons, h, Registry.get] using ih

theorem Registry.get_cons (e : Nat × TrackingClient) (rest : Registry) (c : Nat) :
    Registry.get (e :: rest) c = if e.1 = c then some e.2 else Registry.get rest c := rfl

theorem Registry.get_remove_ne (r : Registry) (c k : Nat) (h : k ≠ c) :
    Registry.get (Registry.remove r k) c = Registry.get r c := by
  induction r with
  | nil => rfl
  | cons e rest ih =>
    rw [Registry.remove, List.filter_cons]
    by_cases he : e.1 = k
    · have hec : ¬ e.1 = c := fun hc => h (he ▸ hc)
      have hdec : decide (e.1 ≠ k) = false := by simp [he]
      simp only [hdec, Bool.false_eq_true, if_false]
      rw [Registry.get_cons, if_neg hec]
      exact ih
    · have hdec : decide (e.1 ≠ k) = true := by simp [he]
      simp only [hdec, if_true]
      rw [Registry.get_cons, Registry.get_cons]
      by_cases hc : e.1 = c
      · rw [if_pos hc, if_pos hc]
      · rw [if_neg hc, if_neg hc]
        exact ih

/-! ### Broadcast fold lemmas -/

theorem broadcastStep_sent_mem (env : ConnEnv) (u : LocationSample)
    (acc : Registry × List (Nat × OutMsg)) (e : Nat × TrackingClient)
    (c : Nat) (m : OutMsg) :
    (c, m) ∈ (broadcastStep env u acc e).2 ↔
      (c, m) ∈ acc.2 ∨
        (c = e.1 ∧ m = OutMsg.locationUpdateFrame u ∧
          e.2.bookingId = some u.bookingId ∧
          env.readyState e.1 = ReadyState.opened ∧ env.sendFails e.1 = false) := by
  unfold broadcastStep
  by_cases h1 : e.2.bookingId = some u.bookingId ∧ env.readyState e.1 = ReadyState.opened
  · rw [if_pos h1]
    by_cases h2 : env.sendFails e.1 = true
    · rw [if_pos h2]
      constructor
      · exact Or.inl
      · rintro (h | ⟨_, _, _, _, hf⟩)
        · exact h
        · rw [h2] at hf
          exact Bool.noConfusion hf
    · rw [if_neg h2]
      have h2f : env.sendFails e.1 = false := by simpa using h2
      show (c, m) ∈ acc.2 ++ [(e.1, OutMsg.locationUpdateFrame u)] ↔ _
      simp only [List.mem_append, List.mem_singleton, Prod.mk.injEq]
      constructor
      · rintro (h | ⟨hc, hm⟩)
        · exact Or.inl h
        · exact Or.inr ⟨hc, hm, h1.1, h1.2, h2f⟩
      · rintro (h | ⟨hc, hm, _, _, _⟩)
        · exact Or.inl h
        · exact Or.inr ⟨hc, hm⟩
  · rw [if_neg h1]
    constructor
    · exact Or.inl
    · rintro (h | ⟨_, _, hb, ho, _⟩)
      · exact h
      · exact absurd ⟨hb, ho⟩ h1

theorem broadcast_foldl_sent (env : ConnEnv) (u : LocationSample)
    (l : List (Nat × TrackingClient)) (acc : Registry × List (Nat × OutMsg))
    (c : Nat) (m : OutMsg) :
    (c, m) ∈ (l.foldl (broadcastStep env u) acc).2 ↔
      (c, m) ∈ acc.2 ∨
        (m = OutMsg.locationUpdateFrame u ∧
          ∃ cl, (c, cl) ∈ l ∧ cl.bookingId = some u.bookingId ∧
            env.readyState c = ReadyState.opened ∧ env.sendFails c = false) := by
  induction l generalizing acc with
  | nil => simp
  | cons e rest ih =>
    rw [List.foldl_cons, ih, broadcastStep_sent_mem]
    constructor
    · rintro ((h | ⟨hc, hm, hb, ho, hf⟩) | ⟨hm, cl, hcl, hb, ho, hf⟩)
      · exact Or.inl h
      · subst hc
        exact Or.inr ⟨hm, e.2, List.mem_cons_self _ _, hb, ho, hf⟩
      · exact Or.inr ⟨hm, cl, List.mem_cons_of_mem _ hcl, hb, ho, hf⟩
    · rintro (h | ⟨hm, cl, hcl, hb, ho, hf⟩)
      · exact Or.inl (Or.inl h)
      · rcases List.mem_cons.mp hcl with he | hrest
        · refine Or.inl (Or.inr ?_)
          have hc1 : c = e.1 := congrArg Prod.fst he
          have hc2 : cl = e.2 := congrArg Prod.snd he
          subst hc1
          exact ⟨rfl, hm, hc2 ▸ hb, ho, hf⟩
        · exact Or.inr ⟨hm, cl, hrest, hb, ho, hf⟩

theorem broadcast_foldl_reg_none (env : ConnEnv) (u : LocationSample)
    (l : List (Nat × TrackingClient)) (acc : Registry × List (Nat × OutMsg))
    (c : Nat) (h : Registry.get acc.1 c = none) :
    Registry.get (l.foldl (broadcastStep env u) acc).1 c = none := by
  induction l generalizing acc with
  | nil => exact h
  | cons e rest ih =>
    rw [List.foldl_cons]
    apply ih
    unfold broadcastStep
    by_cases h1 : e.2.bookingId = some u.bookingId ∧ env.readyState e.1 = ReadyState.opened
    · rw [if_pos h1]
      by_cases h2 : env.sendFails e.1 = true
      · rw [if_pos h2]
        by_cases hc : e.1 = c
        · subst hc; exact Registry.get_remove_self _ _
        · rw [show ((Registry.remove acc.1 e.1, acc.2) :
              Registry × List (Nat × OutMsg)).1 = Registry.remove acc.1 e.1 from rfl,
            Registry.get_remove_ne _ _ _ hc]
          exact h
      · simp only [Bool.not_eq_true] at h2
        rw [h2]
        simp only [Bool.false_eq_true, if_false]
        exact h
    · rw [if_neg h1]; exact h

theorem broadcast_foldl_reg_removed (env : ConnEnv) (u : LocationSample)
    {l : List (Nat × TrackingClient)} {c : Nat} {cl : TrackingClient}
    (acc : Registry × List (Nat × OutMsg))
    (hmem : (c, cl) ∈ l) (hb : cl.bookingId = some u.bookingId)
    (ho : env.readyState c = ReadyState.opened) (hf : env.sendFails c = true) :
    Registry.get (l.foldl (broadcastStep env u) acc).1 c = none := by
  induction hmem generalizing acc with
  | head as =>
    rw [List.foldl_cons]
    apply broadcast_foldl_reg_none
    unfold broadcastStep
    rw [if_pos ⟨hb, ho⟩, if_pos hf]
    exact Registry.get_remove_self _ _
  | tail b hm ih =>
    rw [List.foldl_cons]
    exact ih _

theorem broadcast_foldl_reg_keep (env : ConnEnv) (u : LocationSample)
    (l : List (Nat × TrackingClient)) (acc : Registry × List (Nat × OutMsg))
    (c : Nat) (ho : env.readyState c ≠ ReadyState.opened) :
    Registry.get (l.foldl (broadcastStep env u) acc).1 c = Registry.get acc.1 c := by
  induction l generalizing acc with
  | nil => rfl
  | cons e rest ih =>
    rw [List.foldl_cons, ih]
    unfold broadcastStep
    by_cases h1 : e.2.bookingId = some u.bookingId ∧ env.readyState e.1 = ReadyState.opened
    · rw [if_pos h1]
      by_cases h2 : env.sendFails e.1 = true
      · rw [if_pos h2]
        exact Registry.get_remove_ne _ _ _ (fun hec => ho (hec ▸ h1.2))
      · simp only [Bool.not_eq_true] at h2
        rw [h2]
        simp only [Bool.false_eq_true, if_false]
    · rw [if_neg h1]

/-! ### Stale-sweep fold lemmas -/

theorem cleanup_foldl_none (env : ConnEnv) (now : Int)
    (l : List (Nat × TrackingClient)) (acc : Registry) (c : Nat)
    (h : Registry.get acc c = none) :
    Registry.get (l.foldl (cleanupStep env now) acc) c = none := by
  induction l generalizing acc with
  | nil => exact h
  | cons e rest ih =>
    rw [List.foldl_cons]
    apply ih
    unfold cleanupStep
    by_cases hc : staleCondition env now e = true
    · rw [if_pos hc]
      by_cases hec : e.1 = c
      · subst hec; exact Registry.get_remove_self _ _
      · rw [Registry.get_remove_ne _ _ _ hec]; exact h
    · simp only [Bool.not_eq_true] at hc
      rw [hc]
      simp only [Bool.false_eq_true, if_false]
      exact h

theorem cleanup_foldl_get_some (env : ConnEnv) (now : Int)
    (l : List (Nat × TrackingClient)) (acc : Registry) (c : Nat)
    (cl : TrackingClient)
    (h : Registry.get (l.foldl (cleanupStep env now) acc) c = some cl) :
    Registry.get acc c = some cl := by
  induction l generalizing acc with
  | nil => exact h
  | cons e rest ih =>
    rw [List.foldl_cons] at h
    have h2 := ih _ h
    unfold cleanupStep at h2
    by_cases hc : staleCondition env now e = true
    · rw [if_pos hc] at h2
      by_cases hec : e.1 = c
      · subst hec
        rw [Registry.get_remove_self] at h2
        cases h2
      · rwa [Registry.get_remove_ne _ _ _ hec] at h2
    · simp only [Bool.not_eq_true] at hc
      rw [hc] at h2
      simpa using h2

theorem cleanup_foldl_removed (env : ConnEnv) (now : Int)
    {l : List (Nat × TrackingClient)} {c : Nat} {cl : TrackingClient}
    (acc : Registry) (hmem : (c, cl) ∈ l)
    (hcond : staleCondition env now (c, cl) = true) :
    Registry.get (l.foldl (cleanupStep env now) acc) c = none := by
  induction hmem generalizing acc with
  | head as =>
    rw [List.foldl_cons]
    apply cleanup_foldl_none
    unfold cleanupStep
    rw [if_pos hcond]
    exact Registry.get_remove_self _ _
  | tail b hm ih =>
    rw [List.foldl_cons]
    exact ih _

/-! ### Claim theorems -/

/-- Claim C2 counterexample: a registry session subscribed to booking 5 whose
connection is `closed` is NOT removed by the broadcast scan — the scan's guard
skips non-open connections without deleting them, so the session survives. -/
theorem broadcast_keeps_closed_subscriber_cex :
    Registry.get
      (broadcastLocationUpdate ⟨fun _ => ReadyState.closed, fun _ => false⟩
        [(1, ⟨some 5, 7, "passenger", some 1⟩)] ⟨5, 10, 20, none, none⟩).1 1
      = some ⟨some 5, 7, "passenger", some 1⟩ := by decide

/-- Claim C2 amended: during a broadcast scan, a matching session whose
connection is not open is skipped — it receives nothing and remains in the
registry unchanged; removal during the scan happens only for an open
connection whose send throws. -/
theorem broadcast_skips_non_open (env : ConnEnv) (r : Registry)
    (u : LocationSample) (c : Nat) (cl : TrackingClient)
    (hget : Registry.get r c = some cl)
    (_hb : cl.bookingId = some u.bookingId)
    (ho : env.readyState c ≠ ReadyState.opened) :
    Registry.get (broadcastLocationUpdate env r u).1 c = some cl ∧
      ∀ m, (c, m) ∉ (broadcastLocationUpdate env r u).2 := by
  unfold broadcastLocationUpdate
  constructor
  · rw [broadcast_foldl_reg_keep env u r (r, []) c ho]
    exact hget
  · intro m hm
    rw [broadcast_foldl_sent] at hm
    rcases hm with h | ⟨_, _, _, _, ho2, _⟩
    · cases h
    · exact ho ho2

/-- Witness for the amended C2: a closing-state subscriber to booking 8
survives the broadcast and receives no frame. -/
theorem broadcast_skips_non_open_witness :
    Registry.get
        (broadcastLocationUpdate ⟨fun _ => ReadyState.closing, fun _ => false⟩
          [(3, ⟨some 8, 9, "driver", some 2⟩)] ⟨8, 1, 2, none, none⟩).1 3
        = some ⟨some 8, 9, "driver", some 2⟩ ∧
      (3, OutMsg.pong) ∉
        (broadcastLocationUpdate ⟨fun _ => ReadyState.closing, fun _ => false⟩
          [(3, ⟨some 8, 9, "driver", some 2⟩)] ⟨8, 1, 2, none, none⟩).2 :=
  ⟨(broadcast_skips_non_open ⟨fun _ => ReadyState.closing, fun _ => false⟩
      [(3, ⟨some 8, 9, "driver", some 2⟩)] ⟨8, 1, 2, none, none⟩ 3
      ⟨some 8, 9, "driver", some 2⟩ (by decide) rfl (by decide)).1,
    (broadcast_skips_non_open ⟨fun _ => ReadyState.closing, fun _ => false⟩
      [(3, ⟨some 8, 9, "driver", some 2⟩)] ⟨8, 1, 2, none, none⟩ 3
      ⟨some 8, 9, "driver", some 2⟩ (by decide) rfl (by decide)).2 OutMsg.pong⟩

/-- Claim C6: with a healthy transport (no send throws), a broadcast of a
location sample delivers the update frame to a connection iff some registry
session for it is subscribed to the sample's bookingId and the connection is
open — in particular A subscribed to 5 receives a booking-5 update and B
subscribed to 9 does not. -/
theorem broadcast_delivered_iff_subscribed (env : ConnEnv) (r : Registry)
    (u : LocationSample) (c : Nat)
    (hf : ∀ k, env.sendFails k = false) :
    (c, OutMsg.locationUpdateFrame u) ∈ (broadcastLocationUpdate env r u).2 ↔
      (∃ cl, (c, cl) ∈ r ∧ cl.bookingId = some u.bookingId) ∧
        env.readyState c = ReadyState.opened := by
  unfold broadcastLocationUpdate
  rw [broadcast_foldl_sent]
  constructor
  · rintro (h | ⟨_, cl, hcl, hb, ho, _⟩)
    · cases h
    · exact ⟨⟨cl, hcl, hb⟩, ho⟩
  · rintro ⟨⟨cl, hcl, hb⟩, ho⟩
    exact Or.inr ⟨rfl, cl, hcl, hb, ho, hf c⟩

/-- Witness for C6 at the spec's A/B scenario: session 1 subscribed to
booking 5 receives the booking-5 update. -/
theorem broadcast_delivered_iff_subscribed_witness :
    (1, OutMsg.locationUpdateFrame ⟨5, 10, 20, none, none⟩) ∈
      (broadcastLocationUpdate ⟨fun _ => ReadyState.opened, fun _ => false⟩
        [(1, ⟨some 5, 101, "passenger", some 1⟩),
         (2, ⟨some 9, 102, "passenger", some 1⟩)]
        ⟨5, 10, 20, none, none⟩).2 :=
  (broadcast_delivered_iff_subscribed _ _ _ 1 (fun _ => rfl)).mpr
    ⟨⟨⟨some 5, 101, "passenger", some 1⟩, by decide, rfl⟩, rfl⟩

/-- Claim C7: if sending to one subscribed open recipient throws, that
recipient's session is removed from the registry, and every other matching
open recipient with a working send still receives the update — the failure
does not abort the scan. -/
theorem broadcast_send_failure_isolated (env : ConnEnv) (r : Registry)
    (u : LocationSample) (cf : Nat) (clf : TrackingClient)
    (hget : Registry.get r cf = some clf)
    (hb : clf.bookingId = some u.bookingId)
    (ho : env.readyState cf = ReadyState.opened)
    (hf : env.sendFails cf = true) :
    Registry.get (broadcastLocationUpdate env r u).1 cf = none ∧
      ∀ c cl, Registry.get r c = some cl → cl.bookingId = some u.bookingId →
        env.readyState c = ReadyState.opened → env.sendFails c = false →
        (c, OutMsg.locationUpdateFrame u) ∈ (broadcastLocationUpdate env r u).2 := by
  unfold broadcastLocationUpdate
  constructor
  · exact broadcast_foldl_reg_removed env u (r, []) (Registry.get_mem hget) hb ho hf
  · intro c cl hc hbb hoo hff
    rw [broadcast_foldl_sent]
    exact Or.inr ⟨rfl, cl, Registry.get_mem hc, hbb, hoo, hff⟩

/-- Witness for C7: connection 1's send throws, so its session is removed,
while connection 2 (also subscribed to booking 5) still gets the frame. -/
theorem broadcast_send_failure_isolated_witness :
    Registry.get
        (broadcastLocationUpdate ⟨fun _ => ReadyState.opened, fun k => decide (k = 1)⟩
          [(1, ⟨some 5, 11, "passenger", some 1⟩),
           (2, ⟨some 5, 12, "passenger", some 1⟩)] ⟨5, 3, 4, none, none⟩).1 1
        = none ∧
      (2, OutMsg.locationUpdateFrame ⟨5, 3, 4, none, none⟩) ∈
        (broadcastLocationUpdate ⟨fun _ => ReadyState.opened, fun k => decide (k = 1)⟩
          [(1, ⟨some 5, 11, "passenger", some 1⟩),
           (2, ⟨some 5, 12, "passenger", some 1⟩)] ⟨5, 3, 4, none, none⟩).2 :=
  ⟨(broadcast_send_failure_isolated ⟨fun _ => ReadyState.opened, fun k => decide (k = 1)⟩
      [(1, ⟨some 5, 11, "passenger", some 1⟩), (2, ⟨some 5, 12, "passenger", some 1⟩)]
      ⟨5, 3, 4, none, none⟩ 1 ⟨some 5, 11, "passenger", some 1⟩
      (by decide) rfl rfl (by decide)).1,
    (broadcast_send_failure_isolated ⟨fun _ => ReadyState.opened, fun k => decide (k = 1)⟩
      [(1, ⟨some 5, 11, "passenger", some 1⟩), (2, ⟨some 5, 12, "passenger", some 1⟩)]
      ⟨5, 3, 4, none, none⟩ 1 ⟨some 5, 11, "passenger", some 1⟩
      (by decide) rfl rfl (by decide)).2 2 ⟨some 5, 12, "passenger", some 1⟩
      (by decide) rfl rfl (by decide)⟩

/-- Claim C8: after one pass of the stale sweep over a registry whose
liveness timestamps are all present and positive (as every reachable state
is, since they are set from `Date.now()`), no surviving session has a closed
or closing connection and none has a liveness age above the 120000 ms stale
threshold — open connections included. -/
theorem cleanup_removes_stale (env : ConnEnv) (now : Int) (r : Registry)
    (hpos : ∀ p ∈ r, livePingPositive p.2 = true) :
    ∀ c cl, Registry.get (cleanupStaleConnections env now r) c = some cl →
      env.readyState c ≠ ReadyState.closed ∧ env.readyState c ≠ ReadyState.closing ∧
      ∀ t, cl.lastPing = some t → now - t ≤ 120000 := by
  intro c cl h
  have hr : Registry.get r c = some cl := cleanup_foldl_get_some env now r r c cl h
  have hm : (c, cl) ∈ r := Registry.get_mem hr
  have hcond : staleCondition env now (c, cl) = false := by
    cases hx : staleCondition env now (c, cl) with
    | false => rfl
    | true =>
      have hnone : Registry.get (cleanupStaleConnections env now r) c = none :=
        cleanup_foldl_removed env now r hm hx
      rw [hnone] at h
      cases h
  unfold staleCondition at hcond
  simp only [Bool.or_eq_false_iff, decide_eq_false_iff_not] at hcond
  refine ⟨hcond.1.1, hcond.1.2, ?_⟩
  intro t ht
  have hp := hpos (c, cl) hm
  unfold livePingPositive at hp
  rw [ht] at hp
  have htpos : (0 : Int) < t := of_decide_eq_true hp
  have h22 := hcond.2
  rw [ht] at h22
  have h22b : (decide (t ≠ 0) && decide (now - t > 120000)) = false := h22
  rw [decide_eq_true (ne_of_gt htpos), Bool.true_and] at h22b
  have hnle := of_decide_eq_false h22b
  omega

/-- Claim C4: a well-formed message other than `init` on a connection with
no registry session is answered with the NotInitialized error and changes
nothing: the registry, writes, and every other observable are untouched. -/
theorem not_initialized_rejected (env : ConnEnv) (now : Int) (iOk uOk : Bool)
    (r : Registry) (c : Nat) (m : Msg)
    (hcl : Registry.get r c = none) (hm : m.isInit = false)
    (ho : env.readyState c = ReadyState.opened) (hs : env.sendFails c = false) :
    handleMessage env now iOk uOk r c m
      = ⟨r, [(c, OutMsg.error ErrKind.notInitialized)], [], []⟩ := by
  unfold handleMessage
  simp [hcl, hm, handleError, ho, hs]

/-- Witness for C4: a `ping` on an empty registry is rejected with
NotInitialized and the registry stays empty. -/
theorem not_initialized_rejected_witness :
    handleMessage ⟨fun _ => ReadyState.opened, fun _ => false⟩ 3 true true [] 5 Msg.ping
      = ⟨[], [(5, OutMsg.error ErrKind.notInitialized)], [], []⟩ :=
  not_initialized_rejected ⟨fun _ => ReadyState.opened, fun _ => false⟩ 3 true true
    [] 5 Msg.ping rfl rfl rfl rfl

/-- Claim C3: a `location_update` whose latitude is absent or falsy (the
numeric value 0 included) fails validation: the sender gets the validation
error, and there is no persistence write, no broadcast, and no registry
change. -/
theorem location_update_missing_latitude (env : ConnEnv) (now : Int)
    (iOk uOk : Bool) (r : Registry) (c : Nat)
    (bid lat lon spd hdg : Option Int) (cl : TrackingClient)
    (hcl : Registry.get r c = some cl)
    (hlat : truthyNum lat = false)
    (ho : env.readyState c = ReadyState.opened) (hs : env.sendFails c = false) :
    handleMessage env now iOk uOk r c (Msg.locationUpdate bid lat lon spd hdg)
      = ⟨r, [(c, OutMsg.error ErrKind.locationValidation)], [], []⟩ := by
  unfold handleMessage
  simp [hcl, hlat, handleError, ho, hs]

/-- Witness for C3 at the interesting falsy value: latitude `0` (a valid
equatorial coordinate) is treated as missing. -/
theorem location_update_missing_latitude_witness :
    handleMessage ⟨fun _ => ReadyState.opened, fun _ => false⟩ 9 true true
        [(1, ⟨some 4, 2, "driver", some 1⟩)] 1
        (Msg.locationUpdate (some 4) (some 0) (some 20) none none)
      = ⟨[(1, ⟨some 4, 2, "driver", some 1⟩)],
          [(1, OutMsg.error ErrKind.locationValidation)], [], []⟩ :=
  location_update_missing_latitude ⟨fun _ => ReadyState.opened, fun _ => false⟩ 9
    true true [(1, ⟨some 4, 2, "driver", some 1⟩)] 1
    (some 4) (some 0) (some 20) none none ⟨some 4, 2, "driver", some 1⟩
    (by decide) rfl rfl rfl

/-- Claim C5 counterexample: `init` with the non-positive userId `-3`
succeeds — the code only tests JS truthiness (`!userId`), so a negative
userId creates a session and emits `init_success`, where the claim demands
a ValidationError. -/
theorem init_accepts_negative_userId_cex :
    (handleMessage ⟨fun _ => ReadyState.opened, fun _ => false⟩ 0 true true [] 1
        (Msg.init (some (-3)) (some "driver"))).sent = [(1, OutMsg.initSuccess)] ∧
      Registry.get (handleMessage ⟨fun _ => ReadyState.opened, fun _ => false⟩ 0
          true true [] 1 (Msg.init (some (-3)) (some "driver"))).registry 1
        = some ⟨none, -3, "driver", some 0⟩ := by decide

/-- Claim C5 amended: an `init` succeeds — overwriting the session record
with the given identity, no subscription, and a fresh liveness timestamp,
and emitting `init_success` — iff userId is present and nonzero (truthiness:
negative values pass too) and role is a present non-empty string; otherwise
it fails with the ValidationError and the registry is unchanged, so no
session entry results. -/
theorem init_validation_nonzero (env : ConnEnv) (now : Int) (iOk uOk : Bool)
    (r : Registry) (c : Nat) (u : Option Int) (ro : Option String)
    (ho : env.readyState c = ReadyState.opened) (hs : env.sendFails c = false) :
    ((truthyNum u && truthyStr ro) = true →
      handleMessage env now iOk uOk r c (Msg.init u ro)
        = ⟨Registry.set r c ⟨none, u.getD 0, ro.getD "", some now⟩,
            [(c, OutMsg.initSuccess)], [], []⟩) ∧
    ((truthyNum u && truthyStr ro) = false →
      handleMessage env now iOk uOk r c (Msg.init u ro)
        = ⟨r, [(c, OutMsg.error ErrKind.initValidation)], [], []⟩) := by
  constructor
  · intro hv
    unfold handleMessage
    simp [Msg.isInit, hv, hs]
  · intro hv
    unfold handleMessage
    simp [Msg.isInit, hv, handleError, ho, hs]

/-- Witness for the amended C5: a valid `init` (userId 4, role "driver")
creates the session and acknowledges. -/
theorem init_validation_nonzero_witness :
    handleMessage ⟨fun _ => ReadyState.opened, fun _ => false⟩ 5 true true [] 2
        (Msg.init (some 4) (some "driver"))
      = ⟨[(2, ⟨none, 4, "driver", some 5⟩)], [(2, OutMsg.initSuccess)], [], []⟩ :=
  (init_validation_nonzero ⟨fun _ => ReadyState.opened, fun _ => false⟩ 5 true true
    [] 2 (some 4) (some "driver") rfl rfl).1 (by decide)

/-- Claim C1 counterexample: a valid `location_update` for booking 7 whose
tracking-insert succeeds and whose booking-update fails is NOT broadcast —
the open subscriber of booking 7 (connection 2) receives nothing, while the
sender does get the error frame.  The single try/catch aborts the handler
before `broadcastLocationUpdate` runs. -/
theorem update_failure_no_broadcast_cex :
    (2, OutMsg.locationUpdateFrame ⟨7, 10, 20, none, none⟩) ∉
        (handleMessage ⟨fun _ => ReadyState.opened, fun _ => false⟩ 5 true false
          [(1, ⟨none, 9, "driver", some 1⟩), (2, ⟨some 7, 8, "passenger", some 1⟩)] 1
          (Msg.locationUpdate (some 7) (some 10) (some 20) none none)).sent ∧
      (1, OutMsg.error ErrKind.updateFailure) ∈
        (handleMessage ⟨fun _ => ReadyState.opened, fun _ => false⟩ 5 true false
          [(1, ⟨none, 9, "driver", some 1⟩), (2, ⟨some 7, 8, "passenger", some 1⟩)] 1
          (Msg.locationUpdate (some 7) (some 10) (some 20) none none)).sent := by
  decide

/-- Claim C1 amended: when the tracking-insert succeeds and the booking
last-known-location update fails, the error frame is sent to the submitting
connection, the tracking row is the only persistence write — and the
broadcast does NOT occur: the handler's only outgoing frame is the error,
so no subscriber receives the sample. -/
theorem update_failure_blocks_broadcast (env : ConnEnv) (now : Int)
    (r : Registry) (c : Nat) (bid lat lon spd hdg : Option Int)
    (cl : TrackingClient)
    (hcl : Registry.get r c = some cl)
    (hv : (truthyNum bid && truthyNum lat && truthyNum lon) = true)
    (ho : env.readyState c = ReadyState.opened) (hs : env.sendFails c = false) :
    handleMessage env now true false r c (Msg.locationUpdate bid lat lon spd hdg)
      = ⟨Registry.set r c { cl with lastPing := some now },
          [(c, OutMsg.error ErrKind.updateFailure)],
          [⟨bid.getD 0, lat.getD 0, lon.getD 0, spd, hdg, "active"⟩], []⟩ := by
  unfold handleMessage
  simp [hcl, hv, handleError, ho, hs]

/-- Witness for the amended C1 at the counterexample's scenario. -/
theorem update_failure_blocks_broadcast_witness :
    handleMessage ⟨fun _ => ReadyState.opened, fun _ => false⟩ 5 true false
        [(1, ⟨none, 9, "driver", some 1⟩), (2, ⟨some 7, 8, "passenger", some 1⟩)] 1
        (Msg.locationUpdate (some 7) (some 10) (some 20) none none)
      = ⟨[(1, ⟨none, 9, "driver", some 5⟩), (2, ⟨some 7, 8, "passenger", some 1⟩)],
          [(1, OutMsg.error ErrKind.updateFailure)],
          [⟨7, 10, 20, none, none, "active"⟩], []⟩ :=
  update_failure_blocks_broadcast ⟨fun _ => ReadyState.opened, fun _ => false⟩ 5
    [(1, ⟨none, 9, "driver", some 1⟩), (2, ⟨some 7, 8, "passenger", some 1⟩)] 1
    (some 7) (some 10) (some 20) none none ⟨none, 9, "driver", some 1⟩
    (by decide) rfl rfl rfl

/-- Registry effect of a valid `subscribe_tracking`: the session's
`bookingId` is overwritten and its liveness refreshed, whether or not the
`subscribe_success` send succeeds. -/
theorem subscribe_registry (env : ConnEnv) (now : Int) (iOk uOk : Bool)
    (r : Registry) (c : Nat) (b : Int) (cl : TrackingClient)
    (hcl : Registry.get r c = some cl) (hb : b ≠ 0) :
    (handleMessage env now iOk uOk r c (Msg.subscribeTracking (some b))).registry
      = Registry.set r c { cl with bookingId := some b, lastPing := some now } := by
  unfold handleMessage
  have ht : truthyNum (some b) = true := by simp [truthyNum, hb]
  cases hsf : env.sendFails c <;> simp [hcl, ht, hsf]

/-- Claim C9: two successive `subscribe_tracking` messages leave the session
subscribed only to the second bookingId — the resulting registry equals the
one produced by the second subscribe alone (last-write-wins). -/
theorem subscribe_last_write_wins (env : ConnEnv) (now1 now2 : Int)
    (i1 u1 i2 u2 : Bool) (r : Registry) (c : Nat) (b1 b2 : Int)
    (cl : TrackingClient)
    (hcl : Registry.get r c = some cl) (hb1 : b1 ≠ 0) (hb2 : b2 ≠ 0) :
    (handleMessage env now2 i2 u2
        (handleMessage env now1 i1 u1 r c (Msg.subscribeTracking (some b1))).registry
        c (Msg.subscribeTracking (some b2))).registry
      = (handleMessage env now2 i2 u2 r c (Msg.subscribeTracking (some b2))).registry := by
  rw [subscribe_registry env now1 i1 u1 r c b1 cl hcl hb1,
    subscribe_registry env now2 i2 u2 _ c b2
      { cl with bookingId := some b1, lastPing := some now1 }
      (Registry.get_set_self r c _) hb2,
    Registry.set_set,
    subscribe_registry env now2 i2 u2 r c b2 cl hcl hb2]

/-- Witness for C9 at the spec's example: subscribing to 42 and then to 7
equals subscribing to 7 alone. -/
theorem subscribe_last_write_wins_witness :
    (handleMessage ⟨fun _ => ReadyState.opened, fun _ => false⟩ 11 true true
        (handleMessage ⟨fun _ => ReadyState.opened, fun _ => false⟩ 10 true true
          [(4, ⟨none, 9, "passenger", some 3⟩)] 4
          (Msg.subscribeTracking (some 42))).registry
        4 (Msg.subscribeTracking (some 7))).registry
      = (handleMessage ⟨fun _ => ReadyState.opened, fun _ => false⟩ 11 true true
          [(4, ⟨none, 9, "passenger", some 3⟩)] 4
          (Msg.subscribeTracking (some 7))).registry :=
  subscribe_last_write_wins ⟨fun _ => ReadyState.opened, fun _ => false⟩ 10 11
    true true true true [(4, ⟨none, 9, "passenger", some 3⟩)] 4 42 7
    ⟨none, 9, "passenger", some 3⟩ (by decide) (by decide) (by decide)

/-- Claim C10: a valid re-`init` on a subscribed session replaces the whole
session record with one carrying the new identity, a fresh liveness
timestamp and NO bookingId — the active subscription is silently dropped. -/
theorem reinit_discards_subscription (env : ConnEnv) (now : Int) (iOk uOk : Bool)
    (r : Registry) (c : Nat) (cl : TrackingClient) (b : Int)
    (uid : Int) (ro : String)
    (_hcl : Registry.get r c = some cl) (_hsub : cl.bookingId = some b)
    (hu : uid ≠ 0) (hro : ro ≠ "") :
    (handleMessage env now iOk uOk r c (Msg.init (some uid) (some ro))).registry
      = Registry.set r c ⟨none, uid, ro, some now⟩ := by
  unfold handleMessage
  have ht : (truthyNum (some uid) && truthyStr (some ro)) = true := by
    simp [truthyNum, truthyStr, hu, hro]
  cases hsf : env.sendFails c <;> simp [Msg.isInit, ht, hsf]

/-- Witness for C10: a session subscribed to booking 6 re-inits and loses
the subscription. -/
theorem reinit_discards_subscription_witness :
    (handleMessage ⟨fun _ => ReadyState.opened, fun _ => false⟩ 20 true true
        [(3, ⟨some 6, 5, "driver", some 2⟩)] 3
        (Msg.init (some 5) (some "driver"))).registry
      = Registry.set [(3, ⟨some 6, 5, "driver", some 2⟩)] 3
          ⟨none, 5, "driver", some 20⟩ :=
  reinit_discards_subscription ⟨fun _ => ReadyState.opened, fun _ => false⟩ 20
    true true [(3, ⟨some 6, 5, "driver", some 2⟩)] 3
    ⟨some 6, 5, "driver", some 2⟩ 6 5 "driver"
    (by decide) rfl (by decide) (by decide)

/-- Witness for C8: at `now = 200000`, the session last seen at 100 is swept
out and the one last seen at 150000 survives with all the stated bounds. -/
theorem cleanup_removes_stale_witness :
    (⟨fun _ => ReadyState.opened, fun _ => false⟩ : ConnEnv).readyState 2
        ≠ ReadyState.closed ∧
      (⟨fun _ => ReadyState.opened, fun _ => false⟩ : ConnEnv).readyState 2
        ≠ ReadyState.closing ∧
      (200000 : Int) - 150000 ≤ 120000 :=
  have h := cleanup_removes_stale ⟨fun _ => ReadyState.opened, fun _ => false⟩ 200000
    [(1, ⟨none, 1, "driver", some 100⟩), (2, ⟨none, 2, "driver", some 150000⟩)]
    (by decide) 2 ⟨none, 2, "driver", some 150000⟩ (by decide)
  ⟨h.1, h.2.1, h.2.2 150000 rfl⟩

end LocationHub
